import Mathlib

/-!
Verification of the prompt-orchestration and response-normalization pipeline of
the ai-content-optimiser backend (`backend/app.py` and `backend/routes/rewrite.py`),
as a shallow embedding in Lean.  Python strings are modelled as Lean `String`
(lists of characters); the external completion provider is modelled as an
explicit `String → Except String String` argument (user prompt in, either the
completion text or the raised error message out).
-/

namespace ContentOptimiser

/-! ## Python string primitives -/

/-- The whitespace characters stripped by Python `str.strip()` (ASCII subset). -/
def pyIsSpace (c : Char) : Bool :=
  c = ' ' || c = '\t' || c = '\n' || c = '\r' || c = '\x0b' || c = '\x0c'

/-- Python `str.strip(chars)`: remove characters satisfying `p` from both ends. -/
def stripSet (p : Char → Bool) (l : List Char) : List Char :=
  ((l.dropWhile p).reverse.dropWhile p).reverse

/-- Python `s.strip()` (whitespace strip from both ends). -/
def pyStripWs (s : String) : String :=
  ⟨stripSet pyIsSpace s.data⟩

/-- The character set of `line.strip(" -•\t")` in `generate_keywords`. -/
def isBulletChar (c : Char) : Bool :=
  c = ' ' || c = '-' || c = '•' || c = '\t'

/-- Python `line.strip(" -•\t")`: strip space, dash, bullet and tab from both ends. -/
def pyStripBullets (s : String) : String :=
  ⟨stripSet isBulletChar s.data⟩

/-- Line-boundary characters recognised by Python `str.splitlines()`
(`\r\n` is handled as a single boundary by `splitlinesGo`). -/
def isLineBreak (c : Char) : Bool :=
  c = '\n' || c = '\r' || c = '\x0b' || c = '\x0c' ||
  c = '\x1c' || c = '\x1d' || c = '\x1e' || c = '\x85' ||
  c = '\u2028' || c = '\u2029'

/-- Worker for `pySplitlines`: `acc` holds the current line reversed.
A trailing line break does not produce a trailing empty line. -/
def splitlinesGo : List Char → List Char → List (List Char)
  | [], acc => [acc.reverse]
  | '\r' :: '\n' :: rest, acc =>
      acc.reverse :: (if rest.isEmpty then [] else splitlinesGo rest [])
  | c :: rest, acc =>
      if isLineBreak c then
        acc.reverse :: (if rest.isEmpty then [] else splitlinesGo rest [])
      else
        splitlinesGo rest (c :: acc)

/-- Python `str.splitlines()`. -/
def pySplitlines (s : String) : List String :=
  if s.data.isEmpty then [] else (splitlinesGo s.data []).map fun l => ⟨l⟩

/-! ## `backend/app.py` — `/keywords` endpoint -/

/-- The user prompt built by `generate_keywords` (f-string of `app.py`). -/
def keyword_user_prompt (content : String) : String :=
  "\nExtract 10 high-quality keyword phrases from the following content.\nOutput one phrase per line. Use multi-word phrases where possible.\n\nText:\n\"\"\"" ++ content ++ "\"\"\"\n"

/-- `app.py` lines 59–61: split the completion into lines, keep the lines that
are not blank, and strip `" -•\t"` from both ends of each kept line.
No deduplication is performed. -/
def keywordLines (raw : String) : List String :=
  ((pySplitlines raw).filter fun l => !(pyStripWs l).isEmpty).map pyStripBullets

/-- Observable outcome of the `/keywords` handler: HTTP status, the `error`
field of the JSON body (if any), the `keywords` field (if any), and how many
times the completion provider was invoked. -/
structure KeywordsResponse where
  status : Nat
  errorMsg : Option String
  keywords : Option (List String)
  upstreamAttempts : Nat
deriving DecidableEq, Repr

/-- `generate_keywords` of `app.py`: read `content` (absent → `""`), strip it,
reject empty with a 400; otherwise call the provider once and either return the
split keyword lines (200) or the raised error's message (500). -/
def generate_keywords (contentField : Option String)
    (upstream : String → Except String String) : KeywordsResponse :=
  let content := pyStripWs (contentField.getD "")
  if content = "" then
    ⟨400, some "Content is required", none, 0⟩
  else
    match upstream (keyword_user_prompt content) with
    | .ok text => ⟨200, none, some (keywordLines text), 1⟩
    | .error e => ⟨500, some e, none, 1⟩

/-! ## `backend/app.py` — `/rewrite` endpoint -/

/-- ASCII letter, the character class `[a-zA-Z]` of the opening-fence regex. -/
def isAsciiAlpha (c : Char) : Bool :=
  ('a' ≤ c && c ≤ 'z') || ('A' ≤ c && c ≤ 'Z')

/-- The backtick character (written via its code point). -/
def fenceChar : Char := Char.ofNat 96

/-- Does the character list begin with three backticks (`html.startswith`)? -/
def beginsFenceL : List Char → Bool
  | a :: b :: c :: _ => a = fenceChar && b = fenceChar && c = fenceChar
  | _ => false

/-- Does the string begin with a triple-backtick fence? -/
def beginsFence (s : String) : Bool := beginsFenceL s.data

/-- Rest of `re.sub` with the opening-fence pattern, applied after the three
backticks have been dropped: consume the `[a-zA-Z]*` language tag greedily,
then one optional newline. -/
def dropOpenRest (r : List Char) : List Char :=
  match r.dropWhile isAsciiAlpha with
  | '\n' :: t => t
  | r' => r'

/-- `re.sub` with the closing-fence pattern (three backticks anchored at the
end): the anchor matches at the end of the string or just before one final
newline, and a single match is removed. -/
def dropCloseFence (l : List Char) : List Char :=
  let r := l.reverse
  if beginsFenceL r then (r.drop 3).reverse
  else
    match r with
    | '\n' :: rest => if beginsFenceL rest then ('\n' :: rest.drop 3).reverse else l
    | _ => l

/-- `app.py` lines 94–96 on character lists: if the text starts with three
backticks, remove the opening fence line and a trailing fence. -/
def stripFencesList (l : List Char) : List Char :=
  if beginsFenceL l then dropCloseFence (dropOpenRest (l.drop 3)) else l

/-- The fence-stripping step of `rewrite_content` (`app.py` lines 94–96). -/
def stripFences (s : String) : String :=
  ⟨stripFencesList s.data⟩

/-- `app.py` line 93 plus lines 94–96: whitespace-strip the completion, then
strip a fence. This is the whole response normalisation of `/rewrite`. -/
def rewriteNormalize (raw : String) : String :=
  stripFences (pyStripWs raw)

/-- `app.py` line 73: `", ".join(keywords[:5]) if keywords else ""`. -/
def rewrite_primary (keywords : List String) : String :=
  if keywords.isEmpty then "" else String.intercalate ", " (keywords.take 5)

/-- Text of the rewrite user prompt before the primary-keyword list. -/
def rewritePromptPre : String :=
  "\nRewrite the content below using clean, semantic HTML tags only (no <html>, <head>, or <body>).\nInclude a <h1> title, <h2>/<h3> subheadings, and <p> paragraphs.\nBegin with a 1–2 sentence introduction in a <p> tag.\nPrimary keywords to include: "

/-- Text of the rewrite user prompt between the keyword list and the content. -/
def rewritePromptMid : String :=
  "\nOnly use the source content. Do not fabricate information.\n\nContent:\n\"\"\""

/-- The user prompt built by `rewrite_content` (f-string of `app.py`). -/
def rewrite_user_prompt (content : String) (keywords : List String) : String :=
  rewritePromptPre ++ rewrite_primary keywords ++ rewritePromptMid ++ content ++ "\"\"\"\n"

/-- Observable outcome of the `/rewrite` handler of `app.py`. -/
structure RewriteResponse where
  status : Nat
  errorMsg : Option String
  html : Option String
  upstreamAttempts : Nat
deriving DecidableEq, Repr

/-- `rewrite_content` of `app.py`: read `content` (absent → `""`) and
`keywords` (absent → `[]`), strip the content, reject empty with a 400;
otherwise call the provider once with the rewrite prompt and either return the
normalised HTML fragment (200) or the raised error's message (500). -/
def rewrite_content (contentField : Option String)
    (keywordsField : Option (List String))
    (upstream : String → Except String String) : RewriteResponse :=
  let content := pyStripWs (contentField.getD "")
  let keywords := keywordsField.getD []
  if content = "" then
    ⟨400, some "Content is required", none, 0⟩
  else
    match upstream (rewrite_user_prompt content keywords) with
    | .ok text => ⟨200, none, some (rewriteNormalize text), 1⟩
    | .error e => ⟨500, some e, none, 1⟩

/-! ## `backend/routes/rewrite.py` — blueprint `/rewrite` endpoint -/

/-- Module-level initialisation of `routes/rewrite.py` (line 7):
`client = OpenAI(api_key=os.environ["OPENAI_API_KEY"])`.  A missing variable
makes the subscript raise `KeyError` at import time, so the module never
loads; otherwise the client holds the key. -/
def bp_module_init (env : String → Option String) : Except String String :=
  match env "OPENAI_API_KEY" with
  | none => .error "KeyError: OPENAI_API_KEY"
  | some k => .ok k

/-- The user prompt built by the blueprint `rewrite` handler. -/
def bp_user_prompt (audience src : String) : String :=
  "Audience: " ++ audience ++ "\n\nSource:\n" ++ src

/-- Successful JSON payload of the blueprint handler (the temp-file download
path is omitted from the model: it is filesystem I/O irrelevant to the claims). -/
structure BpRewriteData where
  status : Nat
  html_block : String
deriving DecidableEq, Repr

/-- Observable outcome of the blueprint `rewrite` handler: how many times the
provider was invoked, and either the JSON payload or a propagated exception
(the handler has no `try`/`except`, so a provider error escapes the handler). -/
structure BpOutcome where
  upstreamAttempts : Nat
  result : Except String BpRewriteData
deriving Repr

/-- `rewrite` of `routes/rewrite.py`: no validation of `content` (absent →
`""`), the provider is always called, and a successful completion is stripped
and returned with status 200. -/
def bp_rewrite (contentField audienceField : Option String)
    (upstream : String → Except String String) : BpOutcome :=
  let src := contentField.getD ""
  let audience := audienceField.getD "General"
  { upstreamAttempts := 1
    result :=
      match upstream (bp_user_prompt audience src) with
      | .ok t => .ok ⟨200, pyStripWs t⟩
      | .error e => .error e }

/-! ## Trend annotator (modelled from the spec)

No trend-annotation code exists under `src/`; §4.5 of the spec describes it.
The upstream interest-over-time source is modelled as a function from a batch
of terms to either an error or a per-term optional interest series; interest
values are rationals (the spec's floats, no non-finite values arise). -/

/-- Qualitative interest label of a `TrendResult`. -/
inductive TrendLabel where
  | trending
  | stable
  | lowInterest
  | noData
  | skipped
deriving DecidableEq, Repr

/-- Modelled from the spec: one trend annotation per requested term (§3). -/
structure TrendResult where
  term : String
  averageInterest : Option ℚ
  label : TrendLabel
deriving DecidableEq, Repr

/-- Modelled from the spec: label thresholds of §4.5 (mean ≥ 50 → Trending,
20 ≤ mean < 50 → Stable, otherwise LowInterest). -/
def trendLabelOf (m : ℚ) : TrendLabel :=
  if 50 ≤ m then .trending else if 20 ≤ m then .stable else .lowInterest

/-- Modelled from the spec: arithmetic mean of the interest series, absent for
an empty series. -/
def meanInterest (xs : List ℚ) : Option ℚ :=
  if xs.isEmpty then none else some (xs.sum / (xs.length : ℚ))

/-- Fuel-indexed worker for `batchesOf5`; the fuel is an upper bound on the
number of batches still to produce (structural recursion so that concrete
inputs evaluate in the kernel). -/
def batchesOf5Go : Nat → List String → List (List String)
  | _, [] => []
  | 0, _ => []
  | Nat.succ fuel, a :: t => (a :: t).take 5 :: batchesOf5Go fuel ((a :: t).drop 5)

/-- Modelled from the spec: partition the terms into batches of at most 5. -/
def batchesOf5 (l : List String) : List (List String) :=
  batchesOf5Go l.length l

/-- Modelled from the spec: annotate one term of a successfully fetched batch;
a term absent from the returned series (or with an empty series) degrades to
NoData. -/
def annotateTerm (series : String → Option (List ℚ)) (t : String) : TrendResult :=
  match series t with
  | none => ⟨t, none, .noData⟩
  | some xs =>
      match meanInterest xs with
      | none => ⟨t, none, .noData⟩
      | some m => ⟨t, some m, trendLabelOf m⟩

/-- Modelled from the spec: annotate one successfully fetched batch. -/
def annotateBatch (series : String → Option (List ℚ)) (b : List String) :
    List TrendResult :=
  b.map (annotateTerm series)

/-- Modelled from the spec: process the batches in order; on the first failed
fetch, every term not yet resolved (the failing batch and all later batches)
degrades to NoData and no further fetch is issued. -/
def annotateGo (fetch : List String → Except String (String → Option (List ℚ))) :
    List (List String) → List TrendResult
  | [] => []
  | b :: rest =>
      match fetch b with
      | .error _ => ((b :: rest).flatten).map fun t => ⟨t, none, .noData⟩
      | .ok series => annotateBatch series b ++ annotateGo fetch rest

/-- Modelled from the spec: the Trend Annotator of §4.5. When the caller opts
out (`verify = false`) no fetch occurs and every term is labelled Skipped. -/
def annotateTrends (verify : Bool)
    (fetch : List String → Except String (String → Option (List ℚ)))
    (terms : List String) : List TrendResult :=
  if verify then annotateGo fetch (batchesOf5 terms)
  else terms.map fun t => ⟨t, none, .skipped⟩

/-! ## Helper lemmas -/

theorem dropWhile_head?_false {α : Type} {p : α → Bool} :
    ∀ {l : List α} {a : α}, (l.dropWhile p).head? = some a → p a = false := by
  intro l
  induction l with
  | nil => intro a h; simp [List.dropWhile] at h
  | cons b t ih =>
      intro a h
      rw [List.dropWhile_cons] at h
      by_cases hb : p b = true
      · rw [if_pos hb] at h
        exact ih h
      · rw [if_neg hb] at h
        simp only [List.head?_cons, Option.some.injEq] at h
        subst h
        simpa using hb

theorem dropWhile_getLast?_of_ne_nil {α : Type} {p : α → Bool} :
    ∀ {l : List α}, l.dropWhile p ≠ [] → (l.dropWhile p).getLast? = l.getLast? := by
  intro l
  induction l with
  | nil => intro h; simp [List.dropWhile] at h
  | cons b t ih =>
      intro h
      rw [List.dropWhile_cons] at h ⊢
      by_cases hb : p b = true
      · rw [if_pos hb] at h ⊢
        cases t with
        | nil => simp [List.dropWhile] at h
        | cons c t' =>
            rw [ih h, List.getLast?_cons_cons]
      · rw [if_neg hb]

theorem stripSet_head?_false {p : Char → Bool} {l : List Char} {c : Char}
    (h : (stripSet p l).head? = some c) : p c = false := by
  unfold stripSet at h
  rw [List.head?_reverse] at h
  have hne : (l.dropWhile p).reverse.dropWhile p ≠ [] := by
    intro h0
    rw [h0] at h
    simp at h
  rw [dropWhile_getLast?_of_ne_nil hne, List.getLast?_reverse] at h
  exact dropWhile_head?_false h

theorem stripSet_getLast?_false {p : Char → Bool} {l : List Char} {c : Char}
    (h : (stripSet p l).getLast? = some c) : p c = false := by
  unfold stripSet at h
  rw [List.getLast?_reverse] at h
  exact dropWhile_head?_false h

theorem stripSet_append_of (p : Char → Bool) (A X B : List Char)
    (hA : A.dropWhile p = A) (hA0 : A.isEmpty = false)
    (hB : B.reverse.dropWhile p = B.reverse) (hB0 : B.reverse.isEmpty = false) :
    stripSet p (A ++ X ++ B) = A ++ X ++ B := by
  unfold stripSet
  rw [List.append_assoc, List.dropWhile_append, hA, hA0]
  simp only [Bool.false_eq_true, if_false]
  rw [List.reverse_append, List.reverse_append, List.append_assoc,
    List.dropWhile_append, hB, hB0]
  simp only [Bool.false_eq_true, if_false]
  simp [List.append_assoc]

theorem stripFencesList_of_not_fence {l : List Char}
    (h : beginsFenceL l = false) : stripFencesList l = l := by
  unfold stripFencesList
  rw [h]
  simp

theorem dropCloseFence_of_rev {X Y : List Char}
    (hY : Y.reverse = "```\n".data ++ X.reverse) :
    dropCloseFence Y = X ++ ['\n'] := by
  unfold dropCloseFence
  rw [hY]
  show ('\n' :: X.reverse).reverse = X ++ ['\n']
  simp

theorem stripFencesList_wrap (X : List Char) :
    stripFencesList ("```html\n".data ++ X ++ "\n```".data) = X ++ ['\n'] := by
  have h2 : stripFencesList ("```html\n".data ++ X ++ "\n```".data)
      = dropCloseFence (X ++ "\n```".data) := rfl
  rw [h2]
  apply dropCloseFence_of_rev
  rw [List.reverse_append]
  rfl

theorem batchesOf5Go_flatten :
    ∀ (fuel : Nat) (l : List String), l.length ≤ fuel →
      (batchesOf5Go fuel l).flatten = l := by
  intro fuel
  induction fuel with
  | zero =>
      intro l h
      have : l = [] := List.eq_nil_of_length_eq_zero (Nat.le_zero.mp h)
      subst this
      rfl
  | succ f ih =>
      intro l h
      cases l with
      | nil => rfl
      | cons a t =>
          show ((a :: t).take 5 :: batchesOf5Go f ((a :: t).drop 5)).flatten = a :: t
          rw [List.flatten_cons, ih _ (by simp at h ⊢; omega), List.take_append_drop]

theorem batchesOf5_flatten (l : List String) : (batchesOf5 l).flatten = l :=
  batchesOf5Go_flatten l.length l (Nat.le_refl _)

theorem annotateTerm_term (series : String → Option (List ℚ)) (t : String) :
    (annotateTerm series t).term = t := by
  unfold annotateTerm
  cases series t with
  | none => rfl
  | some xs =>
      cases hm : meanInterest xs with
      | none => simp [hm]
      | some m => simp [hm]

theorem annotateBatch_map_term (series : String → Option (List ℚ))
    (b : List String) : (annotateBatch series b).map TrendResult.term = b := by
  unfold annotateBatch
  rw [List.map_map]
  have : (TrendResult.term ∘ annotateTerm series) = fun t => t := by
    funext t
    exact annotateTerm_term series t
  rw [this, List.map_id']

theorem annotateGo_map_term
    (fetch : List String → Except String (String → Option (List ℚ))) :
    ∀ bs : List (List String),
      (annotateGo fetch bs).map TrendResult.term = bs.flatten := by
  intro bs
  induction bs with
  | nil => rfl
  | cons b rest ih =>
      unfold annotateGo
      cases fetch b with
      | error e =>
          have hc : (TrendResult.term ∘ fun t =>
              (⟨t, none, .noData⟩ : TrendResult)) = fun t => t := rfl
          simp [hc]
      | ok series => rw [List.map_append, annotateBatch_map_term, ih, List.flatten_cons]

/-! ## Claim theorems -/

/-- Claim C1, counterexample: the keyword line-splitter of `generate_keywords`
performs no case-insensitive deduplication.  On the input
`"- Clean Water\n• clean water\n\tEducation"` it returns three terms, two of
which are equal ignoring case, not the claimed `["Clean Water", "Education"]`. -/
theorem keywords_dedup_cex :
    keywordLines "- Clean Water\n• clean water\n\tEducation"
      = ["Clean Water", "clean water", "Education"] ∧
    keywordLines "- Clean Water\n• clean water\n\tEducation"
      ≠ ["Clean Water", "Education"] ∧
    "Clean Water".data.map Char.toLower = "clean water".data.map Char.toLower := by
  decide

/-- Claim C1, amended: the keyword line-splitter splits on line breaks, strips
whitespace and the bullet characters space, `-`, `•` and tab from both ends of
each line, discards blank lines, and preserves first-seen casing and order
without any deduplication; the input lines
`"- Clean Water\n• clean water\n\tEducation"` normalize to exactly
`["Clean Water", "clean water", "Education"]`, and no returned term starts or
ends with a bullet character. -/
theorem keywords_linesplit_amended :
    keywordLines "- Clean Water\n• clean water\n\tEducation"
      = ["Clean Water", "clean water", "Education"] ∧
    ∀ (raw t : String), t ∈ keywordLines raw →
      (∀ c, t.data.head? = some c → isBulletChar c = false) ∧
      (∀ c, t.data.getLast? = some c → isBulletChar c = false) := by
  refine ⟨by decide, ?_⟩
  intro raw t ht
  rcases List.mem_map.mp ht with ⟨l, _, rfl⟩
  exact ⟨fun c hc => stripSet_head?_false hc, fun c hc => stripSet_getLast?_false hc⟩

/-- Witness for the amended claim C1 at the scenario input and its first
returned term, whose first and last characters are 'C' and 'r'. -/
theorem keywords_linesplit_amended_witness :
    isBulletChar 'C' = false ∧ isBulletChar 'r' = false :=
  ⟨(keywords_linesplit_amended.2 "- Clean Water\n• clean water\n\tEducation"
      "Clean Water" (by decide)).1 'C' (by decide),
   (keywords_linesplit_amended.2 "- Clean Water\n• clean water\n\tEducation"
      "Clean Water" (by decide)).2 'r' (by decide)⟩

/-- Claim C2, counterexample: the `/rewrite` normalizer leaves the newline that
preceded the closing fence in place: the completion
`"```html\n<h1>Title</h1>\n```"` normalizes to `"<h1>Title</h1>\n"`, not to the
claimed `"<h1>Title</h1>"`. -/
theorem rewrite_fence_newline_cex :
    rewriteNormalize "```html\n<h1>Title</h1>\n```" = "<h1>Title</h1>\n" ∧
    rewriteNormalize "```html\n<h1>Title</h1>\n```" ≠ "<h1>Title</h1>" := by
  decide

/-- Claim C2, amended: fence stripping removes the opening fence line (triple
backtick plus optional language tag and its newline) and a trailing fence, but
keeps the newline that preceded the trailing fence and does not alter interior
text: for every interior `body`, the completion `"```html\n" ++ body ++ "\n```"`
normalizes to `body ++ "\n"` (so the scenario yields `"<h1>Title</h1>\n"`,
with one residual newline). -/
theorem rewrite_fence_amended (body : String) :
    rewriteNormalize ("```html\n" ++ body ++ "\n```") = body ++ "\n" := by
  apply String.ext
  show stripFencesList
      (stripSet pyIsSpace (("```html\n" ++ body ++ "\n```").data))
      = (body ++ "\n").data
  rw [show ("```html\n" ++ body ++ "\n```").data
      = "```html\n".data ++ body.data ++ "\n```".data by
    simp [String.data_append]]
  rw [stripSet_append_of pyIsSpace _ _ _ (by decide) (by decide) (by decide)
    (by decide)]
  rw [stripFencesList_wrap]
  show body.data ++ ['\n'] = (body ++ "\n").data
  simp [String.data_append]

/-- Claim C3, counterexample: fence stripping is not idempotent: on
`"``````x"` one application yields `"```x"` and a second application yields
`""`. -/
theorem fence_idem_cex :
    stripFences "``````x" = "```x" ∧
    stripFences (stripFences "``````x") = "" ∧
    stripFences (stripFences "``````x") ≠ stripFences "``````x" := by
  decide

/-- Claim C3, amended: fence stripping is idempotent on every input whose
once-stripped result does not itself begin with a triple-backtick fence (the
operation is the identity on non-fenced strings); when the once-stripped result
begins with another fence, a second application can strip further. -/
theorem fence_idem_amended (s : String)
    (h : beginsFence (stripFences s) = false) :
    stripFences (stripFences s) = stripFences s := by
  apply String.ext
  exact stripFencesList_of_not_fence h

/-- Witness for the amended claim C3 at `"abc"`. -/
theorem fence_idem_amended_witness :
    stripFences (stripFences "abc") = stripFences "abc" :=
  fence_idem_amended "abc" (by decide)

/-- Claim C4, counterexample: the `/rewrite` normalizer has no paragraph-wrap
fallback: the completion `"hello"` contains no `<` marker, yet it is returned
unchanged as `"hello"`, which contains no tag at all. -/
theorem html_fallback_cex :
    rewriteNormalize "hello" = "hello" ∧
    "hello".data.contains '<' = false ∧
    rewriteNormalize "hello" ≠ "<p>hello</p>" := by
  decide

/-- Claim C4, amended: there is no HTML fallback: whenever the
whitespace-stripped completion does not begin with a fence, the normalizer
returns it unchanged — even when it contains no angle-bracket marker — so the
returned fragment can contain no tag. -/
theorem html_fallback_amended (s : String)
    (h : beginsFence (pyStripWs s) = false) :
    rewriteNormalize s = pyStripWs s := by
  apply String.ext
  exact stripFencesList_of_not_fence h

/-- Witness for the amended claim C4 at the tagless completion `"hello"`. -/
theorem html_fallback_amended_witness :
    rewriteNormalize "hello" = pyStripWs "hello" :=
  html_fallback_amended "hello" (by decide)

/-- Claim C5, counterexample: the blueprint `/rewrite` route of
`routes/rewrite.py` performs no validation: on a request with empty `content`
it still invokes the completion provider and returns status 200, not the
claimed 400 with no upstream call. -/
theorem empty_content_cex :
    (bp_rewrite (some "") none
      (fun _ => Except.ok "<article>x</article>")).upstreamAttempts = 1 ∧
    (bp_rewrite (some "") none
      (fun _ => Except.ok "<article>x</article>")).result
      = Except.ok ⟨200, "<article>x</article>"⟩ := by
  exact ⟨rfl, rfl⟩

/-- Claim C5, amended: the `/keywords` and `/rewrite` handlers of `app.py`
return HTTP 400 with an error field and attempt no upstream call when `content`
is empty or absent; the blueprint `/rewrite` route of `routes/rewrite.py`
performs no such validation and always attempts the upstream completion call. -/
theorem empty_content_amended :
    (∀ up, generate_keywords none up
      = ⟨400, some "Content is required", none, 0⟩) ∧
    (∀ up, generate_keywords (some "") up
      = ⟨400, some "Content is required", none, 0⟩) ∧
    (∀ kf up, rewrite_content none kf up
      = ⟨400, some "Content is required", none, 0⟩) ∧
    (∀ kf up, rewrite_content (some "") kf up
      = ⟨400, some "Content is required", none, 0⟩) ∧
    (∀ cf af up, (bp_rewrite cf af up).upstreamAttempts = 1) :=
  ⟨fun _ => rfl, fun _ => rfl, fun _ _ => rfl, fun _ _ => rfl, fun _ _ _ => rfl⟩

/-- Claim C6, counterexample: when the upstream completion call raises,
`generate_keywords` of `app.py` makes exactly one attempt (no retries, no
backoff) and returns HTTP 500 — not the claimed retries and 502 — with the
error's message in the body. -/
theorem upstream_retry_cex :
    generate_keywords (some "hello") (fun _ => Except.error "APIError: rate limited")
      = ⟨500, some "APIError: rate limited", none, 1⟩ ∧
    (generate_keywords (some "hello")
      (fun _ => Except.error "APIError: rate limited")).status ≠ 502 := by
  exact ⟨rfl, by decide⟩

/-- Claim C6, amended: when the upstream completion call fails, the completion
call is attempted exactly once (there is no retry loop and no backoff), and the
endpoint surfaces the failure as HTTP 500 with the underlying error message
included in the body. -/
theorem upstream_error_amended (c e : String) (kf : Option (List String))
    (h : ¬ pyStripWs c = "") :
    generate_keywords (some c) (fun _ => Except.error e)
      = ⟨500, some e, none, 1⟩ ∧
    rewrite_content (some c) kf (fun _ => Except.error e)
      = ⟨500, some e, none, 1⟩ := by
  constructor
  · unfold generate_keywords
    simp only [Option.getD_some]
    rw [if_neg h]
  · unfold rewrite_content
    simp only [Option.getD_some]
    rw [if_neg h]

/-- Witness for the amended claim C6 at content `"hi"` and error `"boom"`. -/
theorem upstream_error_amended_witness :
    generate_keywords (some "hi") (fun _ => Except.error "boom")
      = ⟨500, some "boom", none, 1⟩ ∧
    rewrite_content (some "hi") none (fun _ => Except.error "boom")
      = ⟨500, some "boom", none, 1⟩ :=
  upstream_error_amended "hi" "boom" none (by decide)

/-- Claim C7, counterexample: no endpoint checks the credential before calling.
When `OPENAI_API_KEY` is absent, the blueprint module of `routes/rewrite.py`
raises `KeyError` at import time (no HTTP 500 response is ever produced), and
`generate_keywords` of `app.py` still attempts the completion call, surfacing
the resulting authentication error only afterwards, as a generic 500. -/
theorem credential_check_cex :
    bp_module_init (fun _ => none) = Except.error "KeyError: OPENAI_API_KEY" ∧
    (generate_keywords (some "hi")
      (fun _ => Except.error "AuthenticationError: No API key provided")).upstreamAttempts = 1 ∧
    (generate_keywords (some "hi")
      (fun _ => Except.error "AuthenticationError: No API key provided")).status = 500 := by
  exact ⟨rfl, rfl, rfl⟩

/-- Claim C7, amended: neither endpoint reports a configuration error before a
network call: when the credential is absent from the environment the blueprint
module of `routes/rewrite.py` raises `KeyError` at import time, so its endpoint
never responds at all; and `app.py` performs no credential check — its handlers
attempt the completion call for any non-empty content and surface whatever
error the client raises as HTTP 500 with the error message in the body. -/
theorem credential_amended (env : String → Option String) (c e : String)
    (henv : env "OPENAI_API_KEY" = none) (hc : ¬ pyStripWs c = "") :
    bp_module_init env = Except.error "KeyError: OPENAI_API_KEY" ∧
    generate_keywords (some c) (fun _ => Except.error e)
      = ⟨500, some e, none, 1⟩ := by
  constructor
  · unfold bp_module_init
    rw [henv]
  · unfold generate_keywords
    simp only [Option.getD_some]
    rw [if_neg hc]

/-- Witness for the amended claim C7 at the empty environment and content
`"hi"`. -/
theorem credential_amended_witness :
    bp_module_init (fun _ => none) = Except.error "KeyError: OPENAI_API_KEY" ∧
    generate_keywords (some "hi") (fun _ => Except.error "auth failed")
      = ⟨500, some "auth failed", none, 1⟩ :=
  credential_amended (fun _ => none) "hi" "auth failed" rfl (by decide)

/-- Claim C8: the user prompt of the `/rewrite` handler of `app.py` embeds a
primary-keyword list that is exactly the first 5 approved keywords,
comma-joined (all of them if fewer than 5, the empty string if the list is
empty or absent), at a fixed position in the prompt text. -/
theorem rewrite_prompt_primary_first5 (content : String) :
    (∀ kw, rewrite_primary kw = String.intercalate ", " (kw.take 5)) ∧
    (rewrite_primary [] = "") ∧
    ∃ pre post, ∀ kw, rewrite_user_prompt content kw
      = pre ++ String.intercalate ", " (kw.take 5) ++ post := by
  have hp : ∀ kw, rewrite_primary kw = String.intercalate ", " (kw.take 5) := by
    intro kw
    cases kw with
    | nil => rfl
    | cons a t => simp [rewrite_primary]
  refine ⟨hp, rfl, rewritePromptPre, rewritePromptMid ++ content ++ "\"\"\"\n",
    fun kw => ?_⟩
  rw [rewrite_user_prompt, hp kw]
  simp [String.append_assoc]

/-- Claim C9: trend annotation (modelled from spec §4.5, no code under `src/`)
is total: it returns exactly one `TrendResult` per requested term, in order
(hence `len(result) == len(input_terms)`), and when the upstream fetch raises at
any stage every term degrades to NoData. -/
theorem trend_total (verify : Bool)
    (fetch : List String → Except String (String → Option (List ℚ)))
    (terms : List String) (e : String) :
    ((annotateTrends verify fetch terms).map TrendResult.term = terms) ∧
    (∀ r ∈ annotateTrends true (fun _ => Except.error e) terms,
      r.label = TrendLabel.noData) := by
  constructor
  · unfold annotateTrends
    cases verify with
    | true =>
        rw [if_pos rfl, annotateGo_map_term, batchesOf5_flatten]
    | false =>
        have hc : (TrendResult.term ∘ fun t =>
            (⟨t, none, .skipped⟩ : TrendResult)) = fun t => t := rfl
        simp [hc]
  · intro r hr
    unfold annotateTrends at hr
    rw [if_pos rfl] at hr
    cases hbs : batchesOf5 terms with
    | nil =>
        rw [hbs] at hr
        simp [annotateGo] at hr
    | cons b rest =>
        rw [hbs] at hr
        unfold annotateGo at hr
        simp only [List.mem_map] at hr
        rcases hr with ⟨t, _, rfl⟩
        rfl

/-- Witness for claim C9: two requested terms with an always-failing fetch give
back both terms in order, and the result for the first term is labelled
NoData. -/
theorem trend_total_witness :
    ((annotateTrends true (fun _ => Except.error "network down")
      ["clean water", "education"]).map TrendResult.term
      = ["clean water", "education"]) ∧
    (⟨"clean water", none, TrendLabel.noData⟩ : TrendResult).label
      = TrendLabel.noData :=
  ⟨(trend_total true (fun _ => Except.error "network down")
      ["clean water", "education"] "network down").1,
   (trend_total true (fun _ => Except.error "network down")
      ["clean water", "education"] "network down").2
      ⟨"clean water", none, TrendLabel.noData⟩ (by decide)⟩

/-- Claim C10: in `app.py`, whitespace-only `content` is stripped before the
emptiness check, so both `/keywords` and `/rewrite` treat it exactly like
absent content: HTTP 400 with an error body and no upstream call. -/
theorem whitespace_content_400 (s : String) (kf : Option (List String))
    (up1 up2 : String → Except String String)
    (h : ∀ c ∈ s.data, pyIsSpace c = true) :
    generate_keywords (some s) up1 = ⟨400, some "Content is required", none, 0⟩ ∧
    rewrite_content (some s) kf up2 = ⟨400, some "Content is required", none, 0⟩ := by
  have hs : pyStripWs s = "" := by
    unfold pyStripWs stripSet
    have h1 : s.data.dropWhile pyIsSpace = [] := by
      rw [List.dropWhile_eq_nil_iff]
      exact h
    rw [h1]
    rfl
  constructor
  · unfold generate_keywords
    simp only [Option.getD_some]
    rw [if_pos hs]
  · unfold rewrite_content
    simp only [Option.getD_some]
    rw [if_pos hs]

/-- Witness for claim C10 at the whitespace-only content `" \t "`. -/
theorem whitespace_content_400_witness :
    generate_keywords (some " \t ") (fun _ => Except.ok "kw")
      = ⟨400, some "Content is required", none, 0⟩ ∧
    rewrite_content (some " \t ") none (fun _ => Except.ok "html")
      = ⟨400, some "Content is required", none, 0⟩ :=
  whitespace_content_400 " \t " none (fun _ => Except.ok "kw")
    (fun _ => Except.ok "html") (by decide)

end ContentOptimiser
